import Mathlib

/-!
# Integration grants: identity codec, privilege validation, lifecycle

A shallow embedding of `pkg/resources/integration_grant.go`.

* Go strings are `String`; a Go `error` result is `Option Error`
  (`none` is `nil`); a `(T, error)` result is `Except Error T`.
* `*schema.ResourceData` and the `meta` handle are mutable in Go. Every
  callback is a function from the state it receives to the error it returns
  together with the state it leaves behind.
* The generic grant helpers (`createGenericGrant`, `readGenericGrant`,
  `deleteGenericGrant`) and the identity codec (`grantID.String`,
  `grantIDFromString`) live outside this file of the package. The lifecycle
  callbacks take them as a `Collaborators` record, so every lifecycle theorem
  holds for any implementation of them.
-/

/-- A Go `error` value, identified with its message. -/
abbrev Error := String

namespace schema

/-- The attribute types used by this resource (`schema.ValueType`). -/
inductive ValueType where
  | TypeString
  | TypeBool
  | TypeSet
  deriving DecidableEq

/-- A dynamically typed attribute value (`interface{}`); `nil` is what `Get`
yields for a key that is not part of the schema. -/
inductive Value where
  | nil
  | str (s : String)
  | bool (b : Bool)
  | set (xs : List String)
  deriving DecidableEq

/-- One attribute of a resource schema (`schema.Schema`), restricted to the
fields that `integrationGrantSchema` sets. `ValidateFunc` is kept as its
accept/reject decision on a string. -/
structure Schema where
  Typ : ValueType
  Required : Bool := false
  Optional : Bool := false
  Description : String := ""
  Default : Option Value := none
  ValidateFunc : Option (String → Bool) := none
  ForceNew : Bool := false

/-- The zero value of an attribute type, returned by `Get` for an attribute
that is neither set nor defaulted. -/
def zeroValue : ValueType → Value
  | .TypeString => .str ""
  | .TypeBool => .bool false
  | .TypeSet => .set []

end schema

namespace validation

/-- ASCII lower-casing of a string, character by character. -/
def toLower (s : String) : String :=
  String.mk (s.data.map Char.toLower)

/-- Modelled from the spec: `validation.StringInSlice(valid, ignoreCase)` of the
plugin SDK, which this file only calls. It accepts a string that equals an
element of `valid`, or, when `ignoreCase` is set, equals one after both are
lower-cased ("case-insensitive membership test"). -/
def StringInSlice (valid : List String) (ignoreCase : Bool) (v : String) : Bool :=
  valid.any (fun str => v == str || (ignoreCase && toLower v == toLower str))

end validation

namespace snowflake

/-- Modelled from the spec: the remote statement builder of `pkg/snowflake`,
"given a resource name, returns an object" on which grant, revoke and show
statements are built; only the name it was built for is kept. -/
structure GrantBuilder where
  name : String
  deriving DecidableEq

/-- Modelled from the spec: `snowflake.IntegrationGrant(w)`, the builder for the
integration named `w`. -/
def IntegrationGrant (w : String) : GrantBuilder :=
  { name := w }

end snowflake

namespace resources

/-- A privilege token (`Privilege`). -/
abbrev Privilege := String

/-- Modelled from the spec: the privilege constant `privilegeAll`, token `ALL`. -/
def privilegeAll : Privilege := "ALL"

/-- Modelled from the spec: the privilege constant `privilegeUsage`, token `USAGE`. -/
def privilegeUsage : Privilege := "USAGE"

/-- Modelled from the spec: the privilege constant `privilegeOwnership`, token
`OWNERSHIP`. -/
def privilegeOwnership : Privilege := "OWNERSHIP"

/-- Modelled from the spec: the type `PrivilegeSet`, "a fixed,
resource-kind-specific set of legal privilege tokens", kept as the list of its
members without repetition. -/
structure PrivilegeSet where
  members : List Privilege
  deriving DecidableEq

/-- Modelled from the spec: `newPrivilegeSet(privileges...)`, the set holding
the given tokens. -/
def newPrivilegeSet (privileges : List Privilege) : PrivilegeSet :=
  { members := privileges.eraseDups }

/-- Modelled from the spec: `PrivilegeSet.toList`, "returns all legal tokens". -/
def PrivilegeSet.toList (ps : PrivilegeSet) : List String :=
  ps.members

/-- The source's `validIntegrationPrivileges`. -/
def validIntegrationPrivileges : PrivilegeSet :=
  newPrivilegeSet [privilegeAll, privilegeUsage, privilegeOwnership]

/-- The source's `integrationGrantSchema`, a Go map kept as an association
list in declaration order. -/
def integrationGrantSchema : List (String × schema.Schema) :=
  [ ("integration_name",
      { Typ := .TypeString
        Required := true
        Description := "Identifier for the integration; must be unique for your account."
        ForceNew := true }),
    ("privilege",
      { Typ := .TypeString
        Optional := true
        Description := "The privilege to grant on the integration."
        Default := some (.str "USAGE")
        ValidateFunc := some (validation.StringInSlice validIntegrationPrivileges.toList true)
        ForceNew := true }),
    ("roles",
      { Typ := .TypeSet
        Optional := true
        Description := "Grants privilege to these roles."
        ForceNew := true }),
    ("with_grant_option",
      { Typ := .TypeBool
        Optional := true
        Description := "When this is set to true, allows the recipient role to grant the privileges to other roles."
        Default := some (.bool false)
        ForceNew := true }) ]

end resources

namespace schema

/-- The `*schema.ResourceData` handed to the callbacks of this resource: the
resource ID and the four attributes of `integrationGrantSchema`, each either
set (`some`) or not declared (`none`). -/
structure ResourceData where
  id : String := ""
  integration_name : Option String := none
  privilege : Option String := none
  roles : Option (List String) := none
  with_grant_option : Option Bool := none
  deriving DecidableEq

/-- `d.Id()`. -/
def ResourceData.Id (d : ResourceData) : String :=
  d.id

/-- `d.SetId(v)`. -/
def ResourceData.SetId (d : ResourceData) (v : String) : ResourceData :=
  { d with id := v }

/-- The value held for `key`, when one is set. -/
def ResourceData.stored (d : ResourceData) (key : String) : Option Value :=
  if key = "integration_name" then d.integration_name.map Value.str
  else if key = "privilege" then d.privilege.map Value.str
  else if key = "roles" then d.roles.map Value.set
  else if key = "with_grant_option" then d.with_grant_option.map Value.bool
  else none

/-- `d.Get(key)`: the value set for the attribute; otherwise the `Default` of
its schema; otherwise the zero value of its type; `nil` for a key outside the
schema. -/
def ResourceData.Get (d : ResourceData) (key : String) : Value :=
  match resources.integrationGrantSchema.lookup key with
  | none => .nil
  | some sch =>
    match d.stored key with
    | some v => v
    | none => sch.Default.getD (zeroValue sch.Typ)

/-- `d.Set(key, value)`: fails for a key outside the schema and for a value
whose type is not the attribute's; otherwise stores the value. -/
def ResourceData.Set (d : ResourceData) (key : String) (value : Value) :
    Except Error ResourceData :=
  if key = "integration_name" then
    match value with
    | .str s => .ok { d with integration_name := some s }
    | _ => .error ("integration_name: expected type string")
  else if key = "privilege" then
    match value with
    | .str s => .ok { d with privilege := some s }
    | _ => .error ("privilege: expected type string")
  else if key = "roles" then
    match value with
    | .set xs => .ok { d with roles := some xs }
    | _ => .error ("roles: expected type set")
  else if key = "with_grant_option" then
    match value with
    | .bool b => .ok { d with with_grant_option := some b }
    | _ => .error ("with_grant_option: expected type bool")
  else .error ("Invalid address to set: " ++ key)

/-- The Go type assertion `v.(string)`. The last branch stands for the panic
of a failed assertion; `Get` never produces it on a string attribute. -/
def Value.assertString : Value → String
  | .str s => s
  | _ => ""

/-- The Go type assertion `v.(bool)`. The last branch stands for the panic of
a failed assertion; `Get` never produces it on a boolean attribute. -/
def Value.assertBool : Value → Bool
  | .bool b => b
  | _ => false

end schema

namespace resources

/-- The type `grantID` with the three fields this file fills in and reads:
the identity of one reconciled grant. -/
structure grantID where
  ResourceName : String
  Privilege : String
  GrantOption : Bool
  deriving DecidableEq

/-- Ghost record of what a callback did to the outside: the generic helpers
it invoked, with the builder it passed, and the IDs it assigned. -/
inductive Event where
  | createGenericGrant (builder : snowflake.GrantBuilder)
  | readGenericGrant (builder : snowflake.GrantBuilder) (futureObjects : Bool)
  | deleteGenericGrant (builder : snowflake.GrantBuilder)
  | SetId (v : String)
  deriving DecidableEq

/-- Everything a callback can read or change: the resource data, the remote
side behind `meta`, and the ghost trace of events so far. -/
structure State (Meta : Type) where
  data : schema.ResourceData
  meta : Meta
  trace : List Event := []

/-- What a generic helper returns: its `error` result, the resource data and
the remote side as it leaves them. -/
abbrev HelperResult (Meta : Type) := Option Error × schema.ResourceData × Meta

/-- The functions of the package that this file calls and does not define.
`String` and `grantIDFromString` are the identity codec; the other three run
statements against the remote side and may write to the resource data they
are handed. -/
structure Collaborators (Meta : Type) where
  grantIDFromString : String → Except Error grantID
  createGenericGrant : schema.ResourceData → Meta → snowflake.GrantBuilder → HelperResult Meta
  readGenericGrant : schema.ResourceData → Meta → List (String × schema.Schema) →
    snowflake.GrantBuilder → Bool → PrivilegeSet → HelperResult Meta
  deleteGenericGrant : schema.ResourceData → Meta → snowflake.GrantBuilder → HelperResult Meta
  String : grantID → Except Error String

variable {Meta : Type}

/-- The state after a generic helper returned `r`, with event `ev` recorded. -/
def State.after (s : State Meta) (ev : Event) (r : HelperResult Meta) : State Meta :=
  { data := r.2.1, meta := r.2.2, trace := s.trace ++ [ev] }

/-- The state after `data.SetId(v)`. -/
def State.SetId (s : State Meta) (v : String) : State Meta :=
  { s with data := s.data.SetId v, trace := s.trace ++ [Event.SetId v] }

/-- The source's `ReadIntegrationGrant`. -/
def ReadIntegrationGrant (c : Collaborators Meta) (s : State Meta) :
    Option Error × State Meta :=
  match c.grantIDFromString s.data.Id with
  | .error err => (some err, s)
  | .ok grantID =>
    let w := grantID.ResourceName
    let priv := grantID.Privilege
    match s.data.Set "integration_name" (.str w) with
    | .error err => (some err, s)
    | .ok d1 =>
      match d1.Set "privilege" (.str priv) with
      | .error err => (some err, { s with data := d1 })
      | .ok d2 =>
        match d2.Set "with_grant_option" (.bool grantID.GrantOption) with
        | .error err => (some err, { s with data := d2 })
        | .ok d3 =>
          let builder := snowflake.IntegrationGrant w
          let r := c.readGenericGrant d3 s.meta integrationGrantSchema builder false
            validIntegrationPrivileges
          (r.1, s.after (Event.readGenericGrant builder false) r)

/-- The source's `CreateIntegrationGrant`. -/
def CreateIntegrationGrant (c : Collaborators Meta) (s : State Meta) :
    Option Error × State Meta :=
  let w := (s.data.Get "integration_name").assertString
  let priv := (s.data.Get "privilege").assertString
  let grantOption := (s.data.Get "with_grant_option").assertBool
  let builder := snowflake.IntegrationGrant w
  let r := c.createGenericGrant s.data s.meta builder
  let s1 := s.after (Event.createGenericGrant builder) r
  match r.1 with
  | some err => (some err, s1)
  | none =>
    let grant : grantID :=
      { ResourceName := w
        Privilege := priv
        GrantOption := grantOption }
    match c.String grant with
    | .error err => (some err, s1)
    | .ok dataIDInput => ReadIntegrationGrant c (s1.SetId dataIDInput)

/-- The source's `DeleteIntegrationGrant`. -/
def DeleteIntegrationGrant (c : Collaborators Meta) (s : State Meta) :
    Option Error × State Meta :=
  match c.grantIDFromString s.data.Id with
  | .error err => (some err, s)
  | .ok grantID =>
    let w := grantID.ResourceName
    let builder := snowflake.IntegrationGrant w
    let r := c.deleteGenericGrant s.data s.meta builder
    (r.1, s.after (Event.deleteGenericGrant builder) r)

end resources

namespace schema

/-- A lifecycle callback (`schema.CreateFunc`, `schema.ReadFunc`, ...). -/
abbrev Callback (Meta : Type) := resources.State Meta → Option Error × resources.State Meta

/-- The `schema.Resource` record: the lifecycle callbacks a resource defines
(`none` for a field left unset) and its schema. -/
structure Resource (Meta : Type) where
  Create : Option (Callback Meta) := none
  Read : Option (Callback Meta) := none
  Update : Option (Callback Meta) := none
  Delete : Option (Callback Meta) := none
  Schema : List (String × schema.Schema)

end schema

namespace resources

/-- The source's `IntegrationGrant`. -/
def IntegrationGrant {Meta : Type} (c : Collaborators Meta) : schema.Resource Meta :=
  { Create := some (CreateIntegrationGrant c)
    Read := some (ReadIntegrationGrant c)
    Delete := some (DeleteIntegrationGrant c)
    Schema := integrationGrantSchema }

end resources

namespace resources

/-- The identity `(integration_name, privilege, with_grant_option)` read from
declared resource data, as `CreateIntegrationGrant` reads it (the three
`data.Get` calls that open it). -/
def declaredIdentity (d : schema.ResourceData) : grantID :=
  { ResourceName := (d.Get "integration_name").assertString
    Privilege := (d.Get "privilege").assertString
    GrantOption := (d.Get "with_grant_option").assertBool }

/-- Resource data with the three fields of an identity written over the
declared ones; the ID and the roles stay. -/
def withIdentity (d : schema.ResourceData) (g : grantID) : schema.ResourceData :=
  { d with
    integration_name := some g.ResourceName
    privilege := some g.Privilege
    with_grant_option := some g.GrantOption }

end resources

namespace resources

/-! ### The identity codec, from the specification -/

/-- Modelled from the spec: the delimiter between the fields of an encoded
identity ("escaped-delimiter scheme"). -/
def grantIDDelimiter : Char := '|'

/-- Modelled from the spec: the escape character of the encoding, the
backslash; it marks an occurrence of the delimiter or of itself inside a
field. -/
def grantIDEscape : Char := Char.ofNat 92

/-- Modelled from the spec: escaping of one field, so that no "delimiter
character ... can legitimately appear unescaped inside `resourceName` or
`privilege`": the delimiter and the escape character get an escape character
in front. -/
def escapeField : List Char → List Char
  | [] => []
  | c :: cs =>
    if c = grantIDDelimiter ∨ c = grantIDEscape then
      grantIDEscape :: c :: escapeField cs
    else c :: escapeField cs

/-- Puts a character in front of the first field of a split. -/
def pushChar (c : Char) : List (List Char) → List (List Char)
  | [] => [[c]]
  | f :: fs => (c :: f) :: fs

/-- Modelled from the spec: splitting of an encoded identity into its fields at
the unescaped delimiters, undoing the escaping; `none` when the string ends
in the middle of an escape. -/
def splitFields : List Char → Option (List (List Char))
  | [] => some [[]]
  | c :: cs =>
    if c = grantIDEscape then
      match cs with
      | [] => none
      | d :: ds => (splitFields ds).map (pushChar d)
    else if c = grantIDDelimiter then (splitFields cs).map (fun fs => [] :: fs)
    else (splitFields cs).map (pushChar c)

/-- The boolean token of the grant option (`strconv.FormatBool`). -/
def FormatBool (b : Bool) : String :=
  if b then "true" else "false"

/-- Modelled from the spec: reading of the grant-option field, `none` when it
"is not a valid boolean token". -/
def ParseBool (str : String) : Option Bool :=
  if str = "true" then some true
  else if str = "false" then some false
  else none

/-- Modelled from the spec: the error `MalformedIdentity`, "identity string
does not decode to a well-formed tuple". -/
def MalformedIdentity : Error := "MalformedIdentity"

/-- Modelled from the spec: `grantID.String`, the `Encode` of §4.1, missing from
the sources: "a self-delimiting, reversible encoding of the three fields", here
the escaped fields joined by the delimiter. It never fails. -/
def grantID.String (gi : grantID) : Except Error String :=
  .ok (String.mk (escapeField gi.ResourceName.data ++ grantIDDelimiter ::
    (escapeField gi.Privilege.data ++ grantIDDelimiter :: (FormatBool gi.GrantOption).data)))

/-- Modelled from the spec: `grantIDFromString`, the `Decode` of §4.1, missing
from the sources: it "fails with a `MalformedIdentity` error when the string
does not split into exactly the expected fields or the grant-option field is
not a valid boolean token". -/
def grantIDFromString (stringID : String) : Except Error grantID :=
  match splitFields stringID.data with
  | some [name, priv, opt] =>
    match ParseBool (String.mk opt) with
    | some b => .ok { ResourceName := String.mk name, Privilege := String.mk priv, GrantOption := b }
    | none => .error MalformedIdentity
  | _ => .error MalformedIdentity

/-! ### A remote side, from the specification -/

/-- Modelled from the spec: one "Remote Grant Record", a grant row observable
in the remote system. -/
structure GrantRow where
  resource : String
  privilege : String
  role : String
  grantOption : Bool
  deriving DecidableEq

/-- Modelled from the spec: the remote system behind `meta`: the grant rows it
holds, and how many more statements it executes before it starts failing
them. -/
structure Remote where
  grants : List GrantRow := []
  budget : Nat
  deriving DecidableEq

/-- Modelled from the spec: the error `RemoteGrantError`, "the remote system
rejected or failed a grant/revoke/query statement". -/
def RemoteGrantError : Error := "RemoteGrantError"

/-- The roles declared in the resource data. -/
def declaredRoles (d : schema.ResourceData) : List String :=
  match d.Get "roles" with
  | .set xs => xs
  | _ => []

/-- Modelled from the spec: `createGenericGrant`, missing from the sources: it
"issues a remote statement to grant `spec.privilege` on the named resource to
each role in `spec.roles`, with the grant-option flag applied". -/
def createGenericGrant (data : schema.ResourceData) (m : Remote)
    (builder : snowflake.GrantBuilder) : HelperResult Remote :=
  match m.budget with
  | 0 => (some RemoteGrantError, data, m)
  | n + 1 =>
    let priv := (data.Get "privilege").assertString
    let grantOption := (data.Get "with_grant_option").assertBool
    let rows := (declaredRoles data).map fun role =>
      { resource := builder.name, privilege := priv, role := role, grantOption := grantOption : GrantRow }
    (none, data, { grants := m.grants ++ rows, budget := n })

/-- Modelled from the spec: `readGenericGrant`, missing from the sources: it
"issues a remote query against the resource+privilege pair to enumerate
current grantee roles"; when no row is left it signals "record no longer
exists" by clearing the ID and returns no error. -/
def readGenericGrant (data : schema.ResourceData) (m : Remote)
    (_sch : List (String × schema.Schema)) (builder : snowflake.GrantBuilder)
    (_futureObjects : Bool) (_validPrivileges : PrivilegeSet) : HelperResult Remote :=
  match m.budget with
  | 0 => (some RemoteGrantError, data, m)
  | n + 1 =>
    let priv := (data.Get "privilege").assertString
    let rows := m.grants.filter fun g => g.resource = builder.name ∧ g.privilege = priv
    let m1 : Remote := { m with budget := n }
    if rows.isEmpty then (none, data.SetId "", m1)
    else (none, { data with roles := some (rows.map fun g => g.role) }, m1)

/-- Modelled from the spec: `deleteGenericGrant`, missing from the sources: it
"issues a remote statement to revoke the privilege from the resource for the
previously granted roles", and succeeds when nothing is granted. -/
def deleteGenericGrant (data : schema.ResourceData) (m : Remote)
    (builder : snowflake.GrantBuilder) : HelperResult Remote :=
  match m.budget with
  | 0 => (some RemoteGrantError, data, m)
  | n + 1 =>
    let priv := (data.Get "privilege").assertString
    let roles := declaredRoles data
    let kept := m.grants.filter fun g =>
      ¬ (g.resource = builder.name ∧ g.privilege = priv ∧ g.role ∈ roles)
    (none, data.SetId "", { grants := kept, budget := n })

/-- The collaborators as the specification describes them, over `Remote`. -/
def specCollaborators : Collaborators Remote :=
  { grantIDFromString := grantIDFromString
    createGenericGrant := createGenericGrant
    readGenericGrant := readGenericGrant
    deleteGenericGrant := deleteGenericGrant
    String := grantID.String }

/-- The declared state of the specification's end-to-end scenario: integration
`my_storage_int`, no privilege declared, role `ANALYST`, over a remote side
that executes `budget` more statements. -/
def declared (budget : Nat) : State Remote :=
  { data := { integration_name := some "my_storage_int", roles := some ["ANALYST"] }
    meta := { budget := budget } }

/-- The same declared state with privilege `SELECT`, which is not legal for an
integration. -/
def declaredSelect : State Remote :=
  { data := { integration_name := some "my_storage_int", privilege := some "SELECT",
              roles := some ["ANALYST"] }
    meta := { budget := 2 } }

/-- A stored resource whose ID is not an encoded identity. -/
def malformed : State Remote :=
  { data := { id := "my_storage_int", integration_name := some "my_storage_int",
              roles := some ["ANALYST"] }
    meta := { budget := 2 } }

/-- A stored resource whose declared fields differ from its ID. -/
def drifted : State Remote :=
  { data := { id := "my_storage_int|USAGE|true", integration_name := some "other_int",
              privilege := some "ALL", roles := some ["ANALYST"],
              with_grant_option := some false }
    meta := { grants := [⟨"my_storage_int", "USAGE", "ANALYST", true⟩], budget := 2 } }

end resources

namespace schema

/-- Modelled from the spec: the rule of the declarative-state engine that
"all attribute changes force full recreation": a change from `old` to `new`
requires a new resource when an attribute marked `ForceNew` differs. -/
def RequiresNew (sch : List (String × Schema)) (old new : ResourceData) : Bool :=
  sch.any fun kv => kv.2.ForceNew && old.Get kv.1 != new.Get kv.1

end schema

/-! ## Lemmas -/

namespace resources

theorem pushChar_cons (c : Char) (f : List Char) :
    (pushChar c ∘ fun fs => f :: fs) = fun fs => (c :: f) :: fs := by
  funext fs
  rfl

theorem splitFields_escaped (d : Char) (ds : List Char) :
    splitFields (grantIDEscape :: d :: ds) = (splitFields ds).map (pushChar d) := by
  rw [splitFields.eq_def]
  simp

theorem splitFields_delimiter (cs : List Char) :
    splitFields (grantIDDelimiter :: cs) = (splitFields cs).map (fun fs => [] :: fs) := by
  have hne : ¬ grantIDDelimiter = grantIDEscape := by decide
  rw [splitFields.eq_def]
  simp [hne]

theorem splitFields_plain (c : Char) (cs : List Char) (h1 : ¬ c = grantIDDelimiter)
    (h2 : ¬ c = grantIDEscape) :
    splitFields (c :: cs) = (splitFields cs).map (pushChar c) := by
  rw [splitFields.eq_def]
  simp [h1, h2]

/-- Splitting undoes the escaping of a field that is followed by a delimiter. -/
theorem splitFields_escapeField (f rest : List Char) :
    splitFields (escapeField f ++ grantIDDelimiter :: rest)
      = (splitFields rest).map (fun fs => f :: fs) := by
  induction f with
  | nil => simpa [escapeField] using splitFields_delimiter rest
  | cons c f ih =>
    by_cases hc : c = grantIDDelimiter ∨ c = grantIDEscape
    · simp only [escapeField, if_pos hc, List.cons_append]
      rw [splitFields_escaped, ih, Option.map_map, pushChar_cons]
    · have h1 : ¬ c = grantIDDelimiter := fun h => hc (Or.inl h)
      have h2 : ¬ c = grantIDEscape := fun h => hc (Or.inr h)
      simp only [escapeField, if_neg hc, List.cons_append]
      rw [splitFields_plain c _ h1 h2, ih, Option.map_map, pushChar_cons]

/-- The boolean token is a single field and reads back as the boolean. -/
theorem splitFields_FormatBool (b : Bool) :
    splitFields (FormatBool b).data = some [(FormatBool b).data] := by
  cases b <;> decide

theorem ParseBool_FormatBool (b : Bool) :
    ParseBool (String.mk (FormatBool b).data) = some b := by
  cases b <;> decide

/-- `Get` yields a value of the attribute's type on the three attributes that
`CreateIntegrationGrant` reads, so its type assertions do not fail. -/
theorem Get_typed (d : schema.ResourceData) :
    (∃ w, d.Get "integration_name" = .str w) ∧ (∃ p, d.Get "privilege" = .str p) ∧
    (∃ b, d.Get "with_grant_option" = .bool b) := by
  rcases d with ⟨id, name, priv, roles, opt⟩
  refine ⟨?_, ?_, ?_⟩
  · cases name
    · exact ⟨_, rfl⟩
    · exact ⟨_, rfl⟩
  · cases priv
    · exact ⟨_, rfl⟩
    · exact ⟨_, rfl⟩
  · cases opt
    · exact ⟨_, rfl⟩
    · exact ⟨_, rfl⟩

/-- Writing the three identity fields with `Set` succeeds and yields
`withIdentity`. -/
theorem Set_identity (d : schema.ResourceData) (g : grantID) :
    d.Set "integration_name" (.str g.ResourceName)
        = .ok { d with integration_name := some g.ResourceName } ∧
    ({ d with integration_name := some g.ResourceName } : schema.ResourceData).Set
        "privilege" (.str g.Privilege)
        = .ok { d with integration_name := some g.ResourceName, privilege := some g.Privilege } ∧
    ({ d with integration_name := some g.ResourceName,
              privilege := some g.Privilege } : schema.ResourceData).Set
        "with_grant_option" (.bool g.GrantOption)
        = .ok (withIdentity d g) :=
  ⟨rfl, rfl, rfl⟩

/-- With an ID that decodes, `ReadIntegrationGrant` is the call of
`readGenericGrant` on the data carrying the identity's fields. -/
theorem ReadIntegrationGrant_of_decoded {Meta : Type} (c : Collaborators Meta) (s : State Meta)
    (g : grantID) (h : c.grantIDFromString s.data.Id = .ok g) :
    ReadIntegrationGrant c s =
      ((c.readGenericGrant (withIdentity s.data g) s.meta integrationGrantSchema
          (snowflake.IntegrationGrant g.ResourceName) false validIntegrationPrivileges).1,
        s.after (Event.readGenericGrant (snowflake.IntegrationGrant g.ResourceName) false)
          (c.readGenericGrant (withIdentity s.data g) s.meta integrationGrantSchema
            (snowflake.IntegrationGrant g.ResourceName) false validIntegrationPrivileges)) := by
  obtain ⟨h1, h2, h3⟩ := Set_identity s.data g
  simp only [ReadIntegrationGrant, h, h1, h2, h3]

/-- With an ID that does not decode, `ReadIntegrationGrant` returns the decode
error and the state it was given. -/
theorem ReadIntegrationGrant_of_undecoded {Meta : Type} (c : Collaborators Meta)
    (s : State Meta) (e : Error) (h : c.grantIDFromString s.data.Id = .error e) :
    ReadIntegrationGrant c s = (some e, s) := by
  simp only [ReadIntegrationGrant, h]

/-- `ReadIntegrationGrant` only appends to the trace. -/
theorem ReadIntegrationGrant_trace {Meta : Type} (c : Collaborators Meta) (s : State Meta) :
    ∃ rest, (ReadIntegrationGrant c s).2.trace = s.trace ++ rest := by
  cases h : c.grantIDFromString s.data.Id with
  | error e =>
    rw [ReadIntegrationGrant_of_undecoded c s e h]
    exact ⟨[], by simp⟩
  | ok g =>
    rw [ReadIntegrationGrant_of_decoded c s g h]
    exact ⟨[Event.readGenericGrant (snowflake.IntegrationGrant g.ResourceName) false], rfl⟩

/-- The three outcomes of `CreateIntegrationGrant`, by what `createGenericGrant`
and the encoding return. -/
theorem CreateIntegrationGrant_unfold {Meta : Type} (c : Collaborators Meta) (s : State Meta) :
    CreateIntegrationGrant c s =
      match (c.createGenericGrant s.data s.meta
          (snowflake.IntegrationGrant (declaredIdentity s.data).ResourceName)).1 with
      | some err => (some err, s.after
          (Event.createGenericGrant (snowflake.IntegrationGrant (declaredIdentity s.data).ResourceName))
          (c.createGenericGrant s.data s.meta
            (snowflake.IntegrationGrant (declaredIdentity s.data).ResourceName)))
      | none =>
        match c.String (declaredIdentity s.data) with
        | .error err => (some err, s.after
            (Event.createGenericGrant (snowflake.IntegrationGrant (declaredIdentity s.data).ResourceName))
            (c.createGenericGrant s.data s.meta
              (snowflake.IntegrationGrant (declaredIdentity s.data).ResourceName)))
        | .ok dataIDInput => ReadIntegrationGrant c ((s.after
            (Event.createGenericGrant (snowflake.IntegrationGrant (declaredIdentity s.data).ResourceName))
            (c.createGenericGrant s.data s.meta
              (snowflake.IntegrationGrant (declaredIdentity s.data).ResourceName))).SetId dataIDInput) :=
  rfl

/-! ## The claims -/

/-- C1: for every identity `x = (resource name, privilege, grant option)`, the
encoding `grantID.String` succeeds and `grantIDFromString` decodes the encoded
string back to exactly `x`. -/
theorem grantID_String_roundtrip (x : grantID) :
    ∃ id, x.String = .ok id ∧ grantIDFromString id = .ok x := by
  refine ⟨_, rfl, ?_⟩
  simp only [grantIDFromString, splitFields_escapeField, splitFields_FormatBool,
    Option.map_some', ParseBool_FormatBool]

/-- C2: when `createGenericGrant` and the encoding of the declared identity
succeed, `CreateIntegrationGrant` sets the ID to that encoding on the data the
grant left, and returns exactly what `ReadIntegrationGrant` returns on the
state carrying that ID. -/
theorem CreateIntegrationGrant_success (Meta : Type) (c : Collaborators Meta) (s : State Meta)
    (d1 : schema.ResourceData) (m1 : Meta) (id : String)
    (hgrant : c.createGenericGrant s.data s.meta
      (snowflake.IntegrationGrant (declaredIdentity s.data).ResourceName) = (none, d1, m1))
    (henc : c.String (declaredIdentity s.data) = .ok id) :
    CreateIntegrationGrant c s =
      ReadIntegrationGrant c
        { data := d1.SetId id
          meta := m1
          trace := s.trace ++
            [Event.createGenericGrant (snowflake.IntegrationGrant (declaredIdentity s.data).ResourceName)]
            ++ [Event.SetId id] } := by
  rw [CreateIntegrationGrant_unfold, hgrant]
  simp only [henc]
  rfl

theorem CreateIntegrationGrant_success_witness :
    CreateIntegrationGrant specCollaborators (declared 2) =
      ReadIntegrationGrant specCollaborators
        { data := { id := "my_storage_int|USAGE|false",
                    integration_name := some "my_storage_int", roles := some ["ANALYST"] }
          meta := { grants := [⟨"my_storage_int", "USAGE", "ANALYST", false⟩], budget := 1 }
          trace := [Event.createGenericGrant (snowflake.IntegrationGrant "my_storage_int"),
                    Event.SetId "my_storage_int|USAGE|false"] } :=
  CreateIntegrationGrant_success Remote specCollaborators (declared 2) _ _ _ rfl rfl

/-- C3, as stated, fails: when the remote side fails the read-back after a
successful grant, `CreateIntegrationGrant` returns an error although the call
has set the resource ID. -/
theorem CreateIntegrationGrant_error_with_ID_set :
    (CreateIntegrationGrant specCollaborators (declared 1)).1 = some RemoteGrantError ∧
    (declared 1).data.Id = "" ∧
    (CreateIntegrationGrant specCollaborators (declared 1)).2.data.Id
      = "my_storage_int|USAGE|false" ∧
    Event.SetId "my_storage_int|USAGE|false"
      ∈ (CreateIntegrationGrant specCollaborators (declared 1)).2.trace := by
  decide

/-- C3, amended: when `CreateIntegrationGrant` returns an error `e`, then either
`createGenericGrant` failed with `e`, or the encoding failed with `e`, and in
both cases the call assigned no ID (it leaves the state of the grant call);
or grant and encoding succeeded, the ID was set to the encoding, and `e` is
the error of `ReadIntegrationGrant` on the state carrying that ID. -/
theorem CreateIntegrationGrant_error_paths (Meta : Type) (c : Collaborators Meta)
    (s : State Meta) (e : Error) (h : (CreateIntegrationGrant c s).1 = some e) :
    (∃ d1 m1, c.createGenericGrant s.data s.meta
        (snowflake.IntegrationGrant (declaredIdentity s.data).ResourceName) = (some e, d1, m1) ∧
      (CreateIntegrationGrant c s).2.data = d1 ∧ (CreateIntegrationGrant c s).2.meta = m1 ∧
      (CreateIntegrationGrant c s).2.trace = s.trace ++
        [Event.createGenericGrant (snowflake.IntegrationGrant (declaredIdentity s.data).ResourceName)])
    ∨ (∃ d1 m1, c.createGenericGrant s.data s.meta
        (snowflake.IntegrationGrant (declaredIdentity s.data).ResourceName) = (none, d1, m1) ∧
      c.String (declaredIdentity s.data) = .error e ∧
      (CreateIntegrationGrant c s).2.data = d1 ∧ (CreateIntegrationGrant c s).2.meta = m1 ∧
      (CreateIntegrationGrant c s).2.trace = s.trace ++
        [Event.createGenericGrant (snowflake.IntegrationGrant (declaredIdentity s.data).ResourceName)])
    ∨ (∃ d1 m1 id, c.createGenericGrant s.data s.meta
        (snowflake.IntegrationGrant (declaredIdentity s.data).ResourceName) = (none, d1, m1) ∧
      c.String (declaredIdentity s.data) = .ok id ∧
      CreateIntegrationGrant c s = ReadIntegrationGrant c
        { data := d1.SetId id
          meta := m1
          trace := s.trace ++
            [Event.createGenericGrant (snowflake.IntegrationGrant (declaredIdentity s.data).ResourceName)]
            ++ [Event.SetId id] } ∧
      Event.SetId id ∈ (CreateIntegrationGrant c s).2.trace) := by
  rw [CreateIntegrationGrant_unfold] at h ⊢
  rcases hr : c.createGenericGrant s.data s.meta
      (snowflake.IntegrationGrant (declaredIdentity s.data).ResourceName) with ⟨err, d1, m1⟩
  rw [hr] at h
  cases err with
  | some err =>
    simp only [Option.some.injEq] at h
    subst h
    exact Or.inl ⟨d1, m1, rfl, rfl, rfl, rfl⟩
  | none =>
    cases henc : c.String (declaredIdentity s.data) with
    | error err =>
      simp only [henc, Option.some.injEq] at h
      subst h
      exact Or.inr (Or.inl ⟨d1, m1, rfl, rfl, rfl, rfl, rfl⟩)
    | ok id =>
      refine Or.inr (Or.inr ⟨d1, m1, id, rfl, rfl, rfl, ?_⟩)
      obtain ⟨rest, hrest⟩ := ReadIntegrationGrant_trace c
        ((s.after (Event.createGenericGrant
          (snowflake.IntegrationGrant (declaredIdentity s.data).ResourceName)) (none, d1, m1)).SetId id)
      show Event.SetId id ∈ (ReadIntegrationGrant c _).2.trace
      rw [hrest]
      simp [State.SetId]

theorem CreateIntegrationGrant_error_paths_witness :
    (CreateIntegrationGrant specCollaborators (declared 0)).1 = some RemoteGrantError ∧
    ((∃ d1 m1, specCollaborators.createGenericGrant (declared 0).data (declared 0).meta
        (snowflake.IntegrationGrant (declaredIdentity (declared 0).data).ResourceName)
          = (some RemoteGrantError, d1, m1) ∧
      (CreateIntegrationGrant specCollaborators (declared 0)).2.data = d1 ∧
      (CreateIntegrationGrant specCollaborators (declared 0)).2.meta = m1 ∧
      (CreateIntegrationGrant specCollaborators (declared 0)).2.trace = (declared 0).trace ++
        [Event.createGenericGrant
          (snowflake.IntegrationGrant (declaredIdentity (declared 0).data).ResourceName)])
    ∨ (∃ d1 m1, specCollaborators.createGenericGrant (declared 0).data (declared 0).meta
        (snowflake.IntegrationGrant (declaredIdentity (declared 0).data).ResourceName)
          = (none, d1, m1) ∧
      specCollaborators.String (declaredIdentity (declared 0).data) = .error RemoteGrantError ∧
      (CreateIntegrationGrant specCollaborators (declared 0)).2.data = d1 ∧
      (CreateIntegrationGrant specCollaborators (declared 0)).2.meta = m1 ∧
      (CreateIntegrationGrant specCollaborators (declared 0)).2.trace = (declared 0).trace ++
        [Event.createGenericGrant
          (snowflake.IntegrationGrant (declaredIdentity (declared 0).data).ResourceName)])
    ∨ (∃ d1 m1 id, specCollaborators.createGenericGrant (declared 0).data (declared 0).meta
        (snowflake.IntegrationGrant (declaredIdentity (declared 0).data).ResourceName)
          = (none, d1, m1) ∧
      specCollaborators.String (declaredIdentity (declared 0).data) = .ok id ∧
      CreateIntegrationGrant specCollaborators (declared 0) =
        ReadIntegrationGrant specCollaborators
          { data := d1.SetId id
            meta := m1
            trace := (declared 0).trace ++
              [Event.createGenericGrant
                (snowflake.IntegrationGrant (declaredIdentity (declared 0).data).ResourceName)]
              ++ [Event.SetId id] } ∧
      Event.SetId id ∈ (CreateIntegrationGrant specCollaborators (declared 0)).2.trace)) :=
  ⟨by decide,
    CreateIntegrationGrant_error_paths Remote specCollaborators (declared 0) RemoteGrantError
      (by decide)⟩

/-- C4: when `createGenericGrant` fails with `e`, `CreateIntegrationGrant`
returns exactly `e` and leaves the state of the grant call: no ID is assigned
and `readGenericGrant` is not reached. -/
theorem CreateIntegrationGrant_grant_failure (Meta : Type) (c : Collaborators Meta)
    (s : State Meta) (e : Error) (d1 : schema.ResourceData) (m1 : Meta)
    (hgrant : c.createGenericGrant s.data s.meta
      (snowflake.IntegrationGrant (declaredIdentity s.data).ResourceName) = (some e, d1, m1)) :
    CreateIntegrationGrant c s =
      (some e,
        { data := d1
          meta := m1
          trace := s.trace ++
            [Event.createGenericGrant
              (snowflake.IntegrationGrant (declaredIdentity s.data).ResourceName)] }) := by
  rw [CreateIntegrationGrant_unfold, hgrant]
  rfl

theorem CreateIntegrationGrant_grant_failure_witness :
    CreateIntegrationGrant specCollaborators (declared 0) =
      (some RemoteGrantError,
        { data := (declared 0).data
          meta := (declared 0).meta
          trace := [Event.createGenericGrant (snowflake.IntegrationGrant "my_storage_int")] }) :=
  CreateIntegrationGrant_grant_failure Remote specCollaborators (declared 0) RemoteGrantError
    (declared 0).data (declared 0).meta rfl

/-- C5, as stated, fails: with the privilege `SELECT`, which the validation of
the privilege attribute rejects, `CreateIntegrationGrant` invokes
`createGenericGrant` and returns no error. -/
theorem CreateIntegrationGrant_unchecked_privilege :
    validation.StringInSlice validIntegrationPrivileges.toList true "SELECT" = false ∧
    (declaredSelect.data.Get "privilege") = .str "SELECT" ∧
    (CreateIntegrationGrant specCollaborators declaredSelect).1 = none ∧
    (CreateIntegrationGrant specCollaborators declaredSelect).2.trace =
      [Event.createGenericGrant (snowflake.IntegrationGrant "my_storage_int"),
       Event.SetId "my_storage_int|SELECT|false",
       Event.readGenericGrant (snowflake.IntegrationGrant "my_storage_int") false] := by
  decide

/-- C5, amended: a privilege that is not a member, ignoring case, of the legal
set is rejected by the `ValidateFunc` of the `privilege` attribute of
`integrationGrantSchema`; `CreateIntegrationGrant` itself checks no privilege:
on every declared state its first action is `createGenericGrant` for the
declared integration. -/
theorem privilege_checked_by_schema_only (Meta : Type) :
    (∀ t : String,
      (∀ p ∈ validIntegrationPrivileges.toList, validation.toLower t ≠ validation.toLower p) →
      ∃ f, (integrationGrantSchema.lookup "privilege").bind (fun sch => sch.ValidateFunc) = some f ∧
        f t = false) ∧
    (∀ (c : Collaborators Meta) (s : State Meta), ∃ rest,
      (CreateIntegrationGrant c s).2.trace = s.trace ++
        Event.createGenericGrant (snowflake.IntegrationGrant (declaredIdentity s.data).ResourceName)
          :: rest) := by
  constructor
  · intro t ht
    refine ⟨validation.StringInSlice validIntegrationPrivileges.toList true, rfl, ?_⟩
    rw [Bool.eq_false_iff]
    intro hacc
    simp only [validation.StringInSlice, List.any_eq_true, Bool.or_eq_true, Bool.and_eq_true,
      beq_iff_eq] at hacc
    obtain ⟨p, hp, hor⟩ := hacc
    rcases hor with heq | ⟨_, hlow⟩
    · exact ht p hp (by rw [heq])
    · exact ht p hp hlow
  · intro c s
    rw [CreateIntegrationGrant_unfold]
    rcases hr : c.createGenericGrant s.data s.meta
        (snowflake.IntegrationGrant (declaredIdentity s.data).ResourceName) with ⟨err, d1, m1⟩
    cases err with
    | some err => exact ⟨[], rfl⟩
    | none =>
      cases henc : c.String (declaredIdentity s.data) with
      | error err => exact ⟨[], rfl⟩
      | ok id =>
        obtain ⟨rest, hrest⟩ := ReadIntegrationGrant_trace c
          ((s.after (Event.createGenericGrant
            (snowflake.IntegrationGrant (declaredIdentity s.data).ResourceName))
              (none, d1, m1)).SetId id)
        refine ⟨Event.SetId id :: rest, ?_⟩
        show (ReadIntegrationGrant c _).2.trace = _
        rw [hrest]
        simp [State.SetId, State.after]

theorem privilege_checked_by_schema_only_witness :
    (∃ f, (integrationGrantSchema.lookup "privilege").bind (fun sch => sch.ValidateFunc) = some f ∧
        f "SELECT" = false) ∧
    (∃ rest, (CreateIntegrationGrant specCollaborators declaredSelect).2.trace =
      declaredSelect.trace ++
        Event.createGenericGrant
          (snowflake.IntegrationGrant (declaredIdentity declaredSelect.data).ResourceName) :: rest) :=
  ⟨(privilege_checked_by_schema_only Remote).1 "SELECT" (by decide),
    (privilege_checked_by_schema_only Remote).2 specCollaborators declaredSelect⟩

/-- C6: when the ID does not decode, `ReadIntegrationGrant` and
`DeleteIntegrationGrant` both return the decode error and leave the state as
they found it: no declared field and no ID changes, and neither
`readGenericGrant` nor `deleteGenericGrant` is invoked. -/
theorem undecodable_ID_aborts (Meta : Type) (c : Collaborators Meta) (s : State Meta)
    (e : Error) (h : c.grantIDFromString s.data.Id = .error e) :
    ReadIntegrationGrant c s = (some e, s) ∧ DeleteIntegrationGrant c s = (some e, s) := by
  constructor
  · exact ReadIntegrationGrant_of_undecoded c s e h
  · simp only [DeleteIntegrationGrant, h]

theorem undecodable_ID_aborts_witness :
    specCollaborators.grantIDFromString malformed.data.Id = .error MalformedIdentity ∧
    ReadIntegrationGrant specCollaborators malformed = (some MalformedIdentity, malformed) ∧
    DeleteIntegrationGrant specCollaborators malformed = (some MalformedIdentity, malformed) :=
  ⟨rfl, undecodable_ID_aborts Remote specCollaborators malformed MalformedIdentity rfl⟩

/-- C7: when the ID decodes to the identity `g`, `ReadIntegrationGrant` writes
`g`'s name, privilege and grant option over the declared `integration_name`,
`privilege` and `with_grant_option`, whatever they held, and then returns what
`readGenericGrant` returns for the builder of the integration named by `g`; so
the three fields hold `g`'s values afterwards whenever `readGenericGrant`
leaves them as it finds them. -/
theorem ReadIntegrationGrant_projects_identity (Meta : Type) (c : Collaborators Meta)
    (s : State Meta) (g : grantID) (h : c.grantIDFromString s.data.Id = .ok g) :
    (withIdentity s.data g).Get "integration_name" = .str g.ResourceName ∧
    (withIdentity s.data g).Get "privilege" = .str g.Privilege ∧
    (withIdentity s.data g).Get "with_grant_option" = .bool g.GrantOption ∧
    ReadIntegrationGrant c s =
      ((c.readGenericGrant (withIdentity s.data g) s.meta integrationGrantSchema
          (snowflake.IntegrationGrant g.ResourceName) false validIntegrationPrivileges).1,
        { data := (c.readGenericGrant (withIdentity s.data g) s.meta integrationGrantSchema
            (snowflake.IntegrationGrant g.ResourceName) false validIntegrationPrivileges).2.1
          meta := (c.readGenericGrant (withIdentity s.data g) s.meta integrationGrantSchema
            (snowflake.IntegrationGrant g.ResourceName) false validIntegrationPrivileges).2.2
          trace := s.trace ++
            [Event.readGenericGrant (snowflake.IntegrationGrant g.ResourceName) false] }) ∧
    ((∀ key ∈ ["integration_name", "privilege", "with_grant_option"],
        (c.readGenericGrant (withIdentity s.data g) s.meta integrationGrantSchema
          (snowflake.IntegrationGrant g.ResourceName) false validIntegrationPrivileges).2.1.Get key
          = (withIdentity s.data g).Get key) →
      (ReadIntegrationGrant c s).2.data.Get "integration_name" = .str g.ResourceName ∧
      (ReadIntegrationGrant c s).2.data.Get "privilege" = .str g.Privilege ∧
      (ReadIntegrationGrant c s).2.data.Get "with_grant_option" = .bool g.GrantOption) := by
  refine ⟨rfl, rfl, rfl, ReadIntegrationGrant_of_decoded c s g h, ?_⟩
  intro hframe
  rw [ReadIntegrationGrant_of_decoded c s g h]
  exact ⟨hframe "integration_name" (by simp), hframe "privilege" (by simp),
    hframe "with_grant_option" (by simp)⟩

theorem ReadIntegrationGrant_projects_identity_witness :
    specCollaborators.grantIDFromString drifted.data.Id = .ok ⟨"my_storage_int", "USAGE", true⟩ ∧
    drifted.data.Get "integration_name" = .str "other_int" ∧
    ReadIntegrationGrant specCollaborators drifted =
      (none,
        { data := { id := "my_storage_int|USAGE|true", integration_name := some "my_storage_int",
                    privilege := some "USAGE", roles := some ["ANALYST"],
                    with_grant_option := some true }
          meta := { grants := [⟨"my_storage_int", "USAGE", "ANALYST", true⟩], budget := 1 }
          trace := [Event.readGenericGrant (snowflake.IntegrationGrant "my_storage_int") false] }) :=
  ⟨rfl, rfl,
    (ReadIntegrationGrant_projects_identity Remote specCollaborators drifted
      ⟨"my_storage_int", "USAGE", true⟩ rfl).2.2.2.1⟩

/-- C8: the default of the privilege attribute is `USAGE`: on a declared state
with no privilege, the privilege that `CreateIntegrationGrant` reads is
`USAGE`, and the identity it encodes after a successful grant has privilege
`USAGE`. -/
theorem CreateIntegrationGrant_default_privilege (Meta : Type) (s : State Meta)
    (h : s.data.privilege = none) :
    (integrationGrantSchema.lookup "privilege").bind (fun sch => sch.Default)
      = some (.str "USAGE") ∧
    (s.data.Get "privilege").assertString = "USAGE" ∧
    (∀ (c : Collaborators Meta) (d1 : schema.ResourceData) (m1 : Meta),
      c.createGenericGrant s.data s.meta
        (snowflake.IntegrationGrant (s.data.Get "integration_name").assertString)
        = (none, d1, m1) →
      CreateIntegrationGrant c s =
        match c.String
          { ResourceName := (s.data.Get "integration_name").assertString
            Privilege := "USAGE"
            GrantOption := (s.data.Get "with_grant_option").assertBool } with
        | .error err =>
          (some err,
            { data := d1
              meta := m1
              trace := s.trace ++ [Event.createGenericGrant
                (snowflake.IntegrationGrant (s.data.Get "integration_name").assertString)] })
        | .ok id =>
          ReadIntegrationGrant c
            { data := d1.SetId id
              meta := m1
              trace := s.trace ++ [Event.createGenericGrant
                (snowflake.IntegrationGrant (s.data.Get "integration_name").assertString)]
                ++ [Event.SetId id] }) := by
  have hpriv : (s.data.Get "privilege").assertString = "USAGE" := by
    have hstored : s.data.stored "privilege" = none := by
      simp [schema.ResourceData.stored, h]
    have hget : s.data.Get "privilege" = .str "USAGE" := by
      have hlook : integrationGrantSchema.lookup "privilege"
          = some { Typ := .TypeString
                   Optional := true
                   Description := "The privilege to grant on the integration."
                   Default := some (.str "USAGE")
                   ValidateFunc := some (validation.StringInSlice validIntegrationPrivileges.toList true)
                   ForceNew := true } := rfl
      simp only [schema.ResourceData.Get, hlook, hstored, Option.getD_some]
    rw [hget]
    rfl
  refine ⟨rfl, hpriv, ?_⟩
  intro c d1 m1 hgrant
  have hid : declaredIdentity s.data =
      { ResourceName := (s.data.Get "integration_name").assertString
        Privilege := "USAGE"
        GrantOption := (s.data.Get "with_grant_option").assertBool } := by
    simp only [declaredIdentity, hpriv]
  have hname : (declaredIdentity s.data).ResourceName
      = (s.data.Get "integration_name").assertString := rfl
  rw [CreateIntegrationGrant_unfold, hname, hgrant, hid]
  rfl

theorem CreateIntegrationGrant_default_privilege_witness :
    (declared 2).data.privilege = none ∧
    ((declared 2).data.Get "privilege").assertString = "USAGE" ∧
    (CreateIntegrationGrant specCollaborators (declared 2)).2.data.Id
      = "my_storage_int|USAGE|false" :=
  ⟨rfl, (CreateIntegrationGrant_default_privilege Remote (declared 2) rfl).2.1,
    by
      rw [(CreateIntegrationGrant_default_privilege Remote (declared 2) rfl).2.2
        specCollaborators (declared 2).data
        { grants := [⟨"my_storage_int", "USAGE", "ANALYST", false⟩], budget := 1 } rfl]
      decide⟩

/-- C9: the legal set `validIntegrationPrivileges` holds exactly `ALL`, `USAGE`
and `OWNERSHIP`, and the validation of the privilege attribute accepts a token
exactly when it equals one of the three ignoring case: `USAGE` and `usage` are
accepted, `SELECT` is rejected. -/
theorem validIntegrationPrivileges_membership :
    (∀ p : String, p ∈ validIntegrationPrivileges.toList ↔
      (p = "ALL" ∨ p = "USAGE" ∨ p = "OWNERSHIP")) ∧
    (∃ f, (integrationGrantSchema.lookup "privilege").bind (fun sch => sch.ValidateFunc) = some f ∧
      (∀ t : String, f t = true ↔
        (validation.toLower t = validation.toLower "ALL" ∨
         validation.toLower t = validation.toLower "USAGE" ∨
         validation.toLower t = validation.toLower "OWNERSHIP")) ∧
      f "USAGE" = true ∧ f "usage" = true ∧ f "SELECT" = false) := by
  have hlist : validIntegrationPrivileges.toList = ["ALL", "USAGE", "OWNERSHIP"] := by decide
  refine ⟨?_, validation.StringInSlice validIntegrationPrivileges.toList true, rfl, ?_,
    by decide, by decide, by decide⟩
  · intro p
    rw [hlist]
    simp
  · intro t
    rw [hlist]
    simp only [validation.StringInSlice, List.any_cons, List.any_nil, Bool.or_false,
      Bool.or_eq_true, Bool.and_eq_true, beq_iff_eq, true_and]
    constructor
    · rintro ((h | h) | (h | h) | (h | h))
      · exact Or.inl (by rw [h])
      · exact Or.inl h
      · exact Or.inr (Or.inl (by rw [h]))
      · exact Or.inr (Or.inl h)
      · exact Or.inr (Or.inr (by rw [h]))
      · exact Or.inr (Or.inr h)
    · rintro (h | h | h)
      · exact Or.inl (Or.inr h)
      · exact Or.inr (Or.inl (Or.inr h))
      · exact Or.inr (Or.inr (Or.inr h))

/-- C10: no attribute of an integration grant is updated in place: the four
attributes of `integrationGrantSchema` are all marked `ForceNew`, the resource
of `IntegrationGrant` defines `Create`, `Read` and `Delete` and no `Update`,
and a declared change of any attribute requires a new resource. -/
theorem IntegrationGrant_forces_new (Meta : Type) (c : Collaborators Meta) :
    integrationGrantSchema.map (fun kv => (kv.1, kv.2.ForceNew))
      = [("integration_name", true), ("privilege", true), ("roles", true),
         ("with_grant_option", true)] ∧
    (IntegrationGrant c).Create = some (CreateIntegrationGrant c) ∧
    (IntegrationGrant c).Read = some (ReadIntegrationGrant c) ∧
    (IntegrationGrant c).Delete = some (DeleteIntegrationGrant c) ∧
    (IntegrationGrant c).Update = none ∧
    (IntegrationGrant c).Schema.map (fun kv => kv.1) = integrationGrantSchema.map (fun kv => kv.1) ∧
    (∀ (old new : schema.ResourceData) (key : String),
      key ∈ (IntegrationGrant c).Schema.map (fun kv => kv.1) →
      old.Get key ≠ new.Get key →
      schema.RequiresNew (IntegrationGrant c).Schema old new = true) := by
  refine ⟨rfl, rfl, rfl, rfl, rfl, rfl, ?_⟩
  intro old new key hkey hne
  have hkeys : (IntegrationGrant c).Schema.map (fun kv => kv.1)
      = ["integration_name", "privilege", "roles", "with_grant_option"] := rfl
  rw [hkeys] at hkey
  have hbne : ∀ k : String, old.Get k ≠ new.Get k → (old.Get k != new.Get k) = true := by
    intro k hk
    simpa using hk
  simp only [List.mem_cons, List.mem_singleton, List.not_mem_nil, or_false] at hkey
  simp only [schema.RequiresNew, IntegrationGrant, integrationGrantSchema, List.any_cons,
    List.any_nil, Bool.true_and, Bool.or_false, Bool.or_eq_true]
  rcases hkey with h | h | h | h
  · subst h
    exact Or.inl (hbne _ hne)
  · subst h
    exact Or.inr (Or.inl (hbne _ hne))
  · subst h
    exact Or.inr (Or.inr (Or.inl (hbne _ hne)))
  · subst h
    exact Or.inr (Or.inr (Or.inr (hbne _ hne)))

theorem IntegrationGrant_forces_new_witness :
    (declared 2).data.Get "privilege" ≠ declaredSelect.data.Get "privilege" ∧
    schema.RequiresNew (IntegrationGrant specCollaborators).Schema
      (declared 2).data declaredSelect.data = true :=
  ⟨by decide,
    (IntegrationGrant_forces_new Remote specCollaborators).2.2.2.2.2.2
      (declared 2).data declaredSelect.data "privilege" (by decide) (by decide)⟩

end resources
